import Mathlib

/-!
Shallow embedding of `src/server/mod.rs` of the hyper HTTP server core
(the tokio-based `Server`, its `ServiceAdapter` between wire `Message`s and
`Request`/`Response`, and the `Listening`/`ServerLoop` shutdown pair),
together with proofs of the specification's testable properties.

Pure Rust functions become Lean functions; the per-connection accept loop
and the shutdown channel become explicit state passing.  Parts of the
repository that are referenced from `src/server/mod.rs` but whose source
files are not part of this tree (`server/request.rs`, `server/response.rs`,
`body.rs`) are modelled from the specification and marked as such.
-/

set_option autoImplicit false

namespace Hyper

/-- A body chunk: a sequence of bytes (`http::Chunk`). -/
def Chunk := List Nat

instance : DecidableEq Chunk :=
  inferInstanceAs (DecidableEq (List Nat))

/-- `std::time::Duration`: whole seconds plus nanoseconds. -/
structure Duration where
  secs : Nat
  nanos : Nat
  deriving DecidableEq, Repr

/-- `Duration::from_secs`. -/
def Duration.from_secs (s : Nat) : Duration := ⟨s, 0⟩

/-- `std::net::SocketAddr`, abstracted to an IP/port pair. -/
structure SocketAddr where
  ip : Nat
  port : Nat
  deriving DecidableEq, Repr

/-- The `Server<A>` configuration struct (src/server/mod.rs lines 44-51);
the `PhantomData` marker carries no data and is dropped. -/
structure Server where
  addr : SocketAddr
  keep_alive : Bool
  idle_timeout : Option Duration
  max_sockets : Nat
  deriving DecidableEq, Repr

/-- `Server::http` (lines 97-106): always returns `Ok` of the default
configuration for the given address. Errors are modelled as `Nat` codes. -/
def Server.http (addr : SocketAddr) : Except Nat Server :=
  Except.ok
    { addr := addr
      keep_alive := true
      idle_timeout := some (Duration.from_secs 10)
      max_sockets := 4096 }

/-- The builder setter `Server::keep_alive` (lines 73-76). -/
def Server.keep_alive' (s : Server) (val : Bool) : Server :=
  { s with keep_alive := val }

/-- The builder setter `Server::idle_timeout` (lines 81-84). -/
def Server.idle_timeout' (s : Server) (val : Option Duration) : Server :=
  { s with idle_timeout := val }

/-- The builder setter `Server::max_sockets` (lines 89-92). -/
def Server.max_sockets' (s : Server) (val : Nat) : Server :=
  { s with max_sockets := val }

/-- Modelled from the spec: a `BodyStream` is a lazy, finite sequence of
byte chunks which may end in an error (the source's `Body` in `body.rs` is
not part of this tree).  `chunks` are the chunks yielded in order;
`errored` records whether the stream terminates with an error. -/
structure Body where
  chunks : List Chunk
  errored : Bool
  deriving DecidableEq

/-- Modelled from the spec: `Body::empty()`, the pre-terminated empty
BodyStream — it yields zero chunks and raises no error. -/
def Body.empty : Body := ⟨[], false⟩

/-- Whether a body is observably empty: zero chunks and no error. -/
def Body.is_empty (b : Body) : Bool := b.chunks.isEmpty && !b.errored

/-- `tokio_proto::streaming::Message`, the wire-adjacent representation:
a head without a body, or a head with a `Body` stream.  The head type is a
parameter, as in the source (`RequestHead` inbound, `ResponseHead`
outbound); `TokioBody`/`Body` convert into one another by direct wrapping,
so both are `Body` here. -/
inductive Message (H : Type) where
  | WithoutBody (head : H)
  | WithBody (head : H) (body : Body)

/-- `http::MessageHead<S>`: a subject (request line or status code) plus
a header set. -/
structure MessageHead (S : Type) where
  subject : S
  headers : List (String × String)
  deriving DecidableEq, Repr

/-- `StatusCode`, abstracted to its numeric value. -/
def StatusCode := Nat

/-- `type ResponseHead = http::MessageHead<::StatusCode>` (line 255). -/
def ResponseHead := MessageHead Nat

/-- The uniform `Request` handed to handlers: a head plus an always-present
body handle. -/
structure Request (H : Type) where
  head : H
  body : Body

/-- The uniform `Response` produced by handlers: a head plus an
always-present body handle. -/
structure Response (H : Type) where
  head : H
  body : Body

/-- Modelled from the spec: `request::new(head, body)` of
`server/request.rs` builds a Request from the message's head and the given
body handle. -/
def request.new {H : Type} (head : H) (body : Body) : Request H :=
  ⟨head, body⟩

/-- Modelled from the spec: `response::split(res)` of `server/response.rs`
splits a Response into its head and an optional body — `none` exactly when
the response's body is observably empty, so that the encoder can avoid the
downstream body-framing machinery. -/
def response.split {H : Type} (res : Response H) : H × Option Body :=
  (res.head, if res.body.is_empty then none else some res.body)

/-- `map_response_to_message` (lines 246-253): split the response; a
present body yields `Message::WithBody`, otherwise `Message::WithoutBody`. -/
def map_response_to_message {H : Type} (res : Response H) : Message H :=
  match response.split res with
  | (head, some body) => Message.WithBody head body
  | (head, none) => Message.WithoutBody head

/-- `HttpService<T>` (lines 242-244): wraps the per-connection inner
service.  The inner service is modelled as a function on successful
completions (a failing handler terminates the connection task and produces
no message). -/
structure HttpService (H : Type) where
  inner : Request H → Response H

/-- The decode step of `HttpService::call` (lines 266-270): a
`WithoutBody` message yields a request over `Body::empty()`; a `WithBody`
message wraps the carried body directly. -/
def HttpService.decode {H : Type} (message : Message H) : Request H :=
  match message with
  | Message.WithoutBody head => request.new head Body.empty
  | Message.WithBody head body => request.new head body

/-- `HttpService::call` (lines 265-272): decode the message, invoke the
inner service, and map the resulting response back to a message. -/
def HttpService.call {H : Type} (svc : HttpService H) (message : Message H) :
    Message H :=
  map_response_to_message (svc.inner (HttpService.decode message))

/-- The echo handler of the round-trip property: the response reproduces
the request's head and body unchanged. -/
def echo_service {H : Type} : HttpService H :=
  ⟨fun req => ⟨req.head, req.body⟩⟩

/-- One event observed by the accept loop spawned in `Server::handle`
(lines 133-140): either the listener stream yields a connection (whose
`factory.new_service()` call either returns a service or an `io::Error`),
or the listener stream itself raises an `io::Error`.  Sockets and errors
are identified by `Nat` codes. -/
inductive AcceptEvent where
  | conn (socket : Nat) (new_service : Except Nat Unit)
  | ioErr (e : Nat)

/-- The accept loop of `Server::handle` (lines 133-140):
`listener.incoming().for_each(...)` with `try!(factory.new_service())`
inside the closure, followed by `map_err` which logs.  `for_each`
processes items in order; a stream error, or an error returned by the
closure, terminates the future — the spawned task then ends after logging.
`bind_server` is abstracted as a function of the accepted socket; the
result lists the connections actually bound, in order, together with the
logged error (if any) that ended the loop. -/
def acceptLoop (C : Type) (bind_server : Nat → C) :
    List AcceptEvent → List (Nat × C) × Option Nat
  | [] => ([], none)
  | AcceptEvent.ioErr e :: _ => ([], some e)
  | AcceptEvent.conn s fr :: rest =>
    match fr with
    | Except.error e => ([], some e)
    | Except.ok _ =>
      let r := acceptLoop C bind_server rest
      ((s, bind_server s) :: r.1, r.2)

/-- An all-ok accept event: the connection is accepted and its service is
created without error. -/
def okConn (s : Nat) : AcceptEvent := AcceptEvent.conn s (Except.ok ())

/-- `Server::handle` (lines 125-143): bind the configured address (the OS
outcome `os_bind` maps the requested address to the actual local address
or an `io::Error`), then spawn the accept loop and return the local
address.  Of the configuration only `self.addr` is read; `keep_alive`,
`idle_timeout` and `max_sockets` are never consulted, and
`bind_transport` (`http::Conn::new(io)`, lines 237-239) receives only the
socket. -/
def Server.handle (C : Type) (bind_server : Nat → C)
    (os_bind : SocketAddr → Except Nat SocketAddr) (s : Server)
    (events : List AcceptEvent) :
    Except Nat (SocketAddr × (List (Nat × C) × Option Nat)) :=
  match os_bind s.addr with
  | Except.error e => Except.error e
  | Except.ok addr => Except.ok (addr, acceptLoop C bind_server events)

/-- The state of the one-shot shutdown channel created in
`Server::standalone` (line 150): whether a `()` message has been sent,
and whether each side has been dropped. -/
structure ChannelState where
  sent : Bool
  receiver_dropped : Bool
  sender_dropped : Bool
  deriving DecidableEq, Repr

/-- The channel as freshly created by `standalone`: nothing sent, both
sides alive. -/
def channel.new : ChannelState := ⟨false, false, false⟩

/-- `tokio::channel::Sender::send`: fails with an `io::Error` when the
receiver has been dropped, otherwise records the message. -/
def Sender.send (st : ChannelState) : Except Nat ChannelState :=
  if st.receiver_dropped then Except.error 0
  else Except.ok { st with sent := true }

/-- `Listening::close` (lines 220-223): send on the shutdown channel,
discarding the result (`let _ = self.shutdown.send(());`), then drop the
sender (close consumes `self`).  Total: no failure path remains. -/
def Listening.close (st : ChannelState) : ChannelState :=
  let st1 :=
    match Sender.send st with
    | Except.ok st' => st'
    | Except.error _ => st
  { st1 with sender_dropped := true }

/-- Whether `core.run(work.into_future())` completes: the receiver future
resolves when a message was sent or when the sender side was dropped;
otherwise the drive blocks forever. -/
def drive_completes (st : ChannelState) : Bool :=
  st.sent || st.sender_dropped

/-- `ServerLoop` (lines 165-167): `inner` is `Some` of the core/receiver
pair until `Drop` takes it. -/
structure ServerLoop where
  inner : Option Unit
  deriving DecidableEq

/-- `impl Drop for ServerLoop` (lines 184-191): take `inner`; when it was
present, drive the core to completion on the shutdown receiver.  Returns
the value after the drop, the number of drives performed (0 or 1), and
whether the performed drive completed (vacuously `true` when none ran). -/
def ServerLoop.drop_loop (sl : ServerLoop) (st : ChannelState) :
    ServerLoop × Nat × Bool :=
  match sl.inner with
  | some _ => (⟨none⟩, 1, drive_completes st)
  | none => (⟨none⟩, 0, true)

/-- `ServerLoop::run` (lines 179-181): the body is empty ("drop will take
care of it"); `run` consumes `self`, so the drop glue performs the single
drive at the end of `run`. -/
def ServerLoop.run (sl : ServerLoop) (st : ChannelState) :
    ServerLoop × Nat × Bool :=
  sl.drop_loop st

/-- The `ServerLoop` as produced by `Server::standalone` (lines 145-161):
`inner` is populated. -/
def standalone_loop : ServerLoop := ⟨some ()⟩

/-- The channel state as produced by `Server::standalone`: freshly
created. -/
def standalone_channel : ChannelState := channel.new

/-- The accept-event trace refuting the accept-loop-continuation claim:
connection 1 arrives but its `factory.new_service()` call fails with
error 7; connection 2 arrives afterwards with a working factory. -/
def ex_events : List AcceptEvent :=
  [AcceptEvent.conn 1 (Except.error 7), AcceptEvent.conn 2 (Except.ok ())]

/-- C1: for every Response whose body is empty (zero chunks, no error),
`map_response_to_message` produces `Message.WithoutBody`; and it never
produces a `Message.WithBody` carrying an empty stream. -/
theorem map_response_to_message_empty_body {H : Type} (res : Response H) :
    (res.body.is_empty = true →
      map_response_to_message res = Message.WithoutBody res.head) ∧
    (∀ (h : H) (b : Body),
      map_response_to_message res = Message.WithBody h b →
      b.is_empty = false) := by
  constructor
  · intro he
    simp [map_response_to_message, response.split, he]
  · intro h b hb
    cases hbe : res.body.is_empty with
    | true => simp [map_response_to_message, response.split, hbe] at hb
    | false =>
      simp [map_response_to_message, response.split, hbe] at hb
      rw [← hb.2]
      exact hbe

/-- Witness for C1: the response with status head 200 and the empty body
encodes as a HeadOnly message. -/
theorem map_response_to_message_empty_body_witness :
    map_response_to_message (Response.mk (200 : Nat) Body.empty) =
      Message.WithoutBody 200 :=
  (map_response_to_message_empty_body ⟨200, Body.empty⟩).1 rfl

/-- C2: decoding a HeadOnly message in `HttpService::call` yields a
Request whose body is the pre-terminated empty body: it yields zero
chunks and raises no error. -/
theorem decode_without_body_is_empty {H : Type} (h : H) :
    HttpService.decode (Message.WithoutBody h) = request.new h Body.empty ∧
    (HttpService.decode (Message.WithoutBody h)).body.chunks = [] ∧
    (HttpService.decode (Message.WithoutBody h)).body.errored = false :=
  ⟨rfl, rfl, rfl⟩

/-- C3: decoding `HeadWithBody(h, chunks)` and re-encoding the identical
(echo) Response reproduces the head `h` and the same chunk sequence in
the same order, for every non-empty chunk sequence. -/
theorem echo_roundtrip {H : Type} (h : H) (chunks : List Chunk) (er : Bool)
    (hne : chunks ≠ []) :
    HttpService.call echo_service (Message.WithBody h ⟨chunks, er⟩) =
      Message.WithBody h ⟨chunks, er⟩ := by
  cases chunks with
  | nil => exact absurd rfl hne
  | cons c cs =>
    simp [HttpService.call, HttpService.decode, request.new, echo_service,
      map_response_to_message, response.split, Body.is_empty]

/-- Witness for C3: a one-chunk body round-trips through decode, the echo
handler, and encode. -/
theorem echo_roundtrip_witness :
    HttpService.call echo_service
        (Message.WithBody (0 : Nat) ⟨[[65]], false⟩) =
      Message.WithBody (0 : Nat) ⟨[[65]], false⟩ :=
  echo_roundtrip 0 [[65]] false (List.cons_ne_nil _ _)

/-- C4: for the `Listening`/`ServerLoop` pair produced by `standalone`,
closing and then discarding the loop without calling `run` performs
exactly one drive, and that drive completes; calling `run` first performs
the one drive, and discarding afterwards performs no additional drive. -/
theorem standalone_shutdown_idempotence :
    ServerLoop.drop_loop standalone_loop (Listening.close standalone_channel) =
        (⟨none⟩, 1, true) ∧
    (ServerLoop.run standalone_loop (Listening.close standalone_channel)).2.1
        = 1 ∧
    ((ServerLoop.run standalone_loop
        (Listening.close standalone_channel)).1.drop_loop
        (Listening.close standalone_channel)).2.1 = 0 ∧
    (ServerLoop.run standalone_loop standalone_channel).2.1 = 1 ∧
    ((ServerLoop.run standalone_loop standalone_channel).1.drop_loop
        standalone_channel).2.1 = 0 := by
  decide

/-- Counterexample for C5: when connection 1's service factory fails
(error 7), the accept loop ends after logging — the subsequent
connection 2 is never bound, refuting "subsequent connections are still
accepted and served". -/
theorem accept_loop_stops_counterexample :
    acceptLoop Unit (fun _ => ()) ex_events = ([], some 7) ∧
    ¬ (2, ()) ∈ (acceptLoop Unit (fun _ => ()) ex_events).1 := by
  decide

/-- C5 (amended): an error raised while accepting a connection or while
creating its service is logged and terminates the accept loop:
connections accepted before the error are bound, connections after it are
not, whatever they are. -/
theorem accept_loop_error_stops {C : Type} (bind_server : Nat → C)
    (pre : List Nat) (s0 e : Nat) (rest : List AcceptEvent) :
    acceptLoop C bind_server
        (pre.map okConn ++ AcceptEvent.conn s0 (Except.error e) :: rest) =
      (pre.map (fun s => (s, bind_server s)), some e) ∧
    acceptLoop C bind_server (pre.map okConn ++ AcceptEvent.ioErr e :: rest) =
      (pre.map (fun s => (s, bind_server s)), some e) := by
  induction pre with
  | nil => exact ⟨rfl, rfl⟩
  | cons p ps ih => simp [okConn, acceptLoop, ih.1, ih.2]

/-- C6: `Server::handle` never reads the `keep_alive` field — the bound
address and the entire observable behaviour of the spawned accept/serve
loop are identical for any two configurations differing only in
`keep_alive`; the field cannot govern connection closing. -/
theorem handle_ignores_keep_alive (C : Type) (bind_server : Nat → C)
    (os_bind : SocketAddr → Except Nat SocketAddr) (s : Server) (b : Bool)
    (events : List AcceptEvent) :
    Server.handle C bind_server os_bind (s.keep_alive' b) events =
      Server.handle C bind_server os_bind s events :=
  rfl

/-- C7: `Server::http` returns the defaults keep_alive = true,
idle_timeout = 10 seconds, max_sockets = 4096, and each builder setter
updates only its own field. -/
theorem server_http_defaults_and_setters (a : SocketAddr) (s : Server)
    (b : Bool) (d : Option Duration) (n : Nat) :
    Server.http a = Except.ok ⟨a, true, some ⟨10, 0⟩, 4096⟩ ∧
    s.keep_alive' b = ⟨s.addr, b, s.idle_timeout, s.max_sockets⟩ ∧
    s.idle_timeout' d = ⟨s.addr, s.keep_alive, d, s.max_sockets⟩ ∧
    s.max_sockets' n = ⟨s.addr, s.keep_alive, s.idle_timeout, n⟩ :=
  ⟨rfl, rfl, rfl, rfl⟩

/-- C8: `ServerLoop::run` is observably equivalent to discarding the
value (its body is empty and the drive happens in the drop glue), and
the `Option::take` guard makes the drive happen at most once: after any
drop, `inner` is `none` and a further drop performs zero drives. -/
theorem run_equiv_drop (sl : ServerLoop) (st : ChannelState) :
    ServerLoop.run sl st = ServerLoop.drop_loop sl st ∧
    (ServerLoop.drop_loop sl st).1.inner = none ∧
    ((ServerLoop.drop_loop sl st).1.drop_loop st).2.1 = 0 := by
  refine ⟨rfl, ?_, ?_⟩ <;>
    cases sl with
    | mk inner => cases inner <;> simp [ServerLoop.drop_loop]

/-- C9: `Server::http` always returns `Ok`: constructing a server
configuration cannot fail. -/
theorem server_http_never_fails (a : SocketAddr) :
    ∃ s : Server, Server.http a = Except.ok s :=
  ⟨_, rfl⟩

/-- C10: `Listening::close` always returns normally — its result is the
stated channel state for every input — and in particular when the
receiver is already dropped (`Sender::send` fails) the error is discarded
and close still completes, only dropping the sender. -/
theorem close_never_fails (st : ChannelState) (e : Nat) :
    Listening.close st =
      (if st.receiver_dropped then { st with sender_dropped := true }
       else { st with sent := true, sender_dropped := true }) ∧
    (Sender.send st = Except.error e →
      Listening.close st = { st with sender_dropped := true }) := by
  constructor
  · cases h : st.receiver_dropped <;>
      simp [Listening.close, Sender.send, h]
  · intro hs
    simp [Listening.close, hs]

/-- Witness for C10: closing after the receiver side is gone returns
normally and only marks the sender dropped. -/
theorem close_never_fails_witness :
    Listening.close ⟨false, true, false⟩ = ⟨false, true, true⟩ :=
  (close_never_fails ⟨false, true, false⟩ 0).2 rfl

end Hyper
